import Mathlib

/-!
Verification of the tag-policy compiler in `src/infra/index.ts` of
`pulumi-aws-org-required-tags`.

The program turns a required-tags configuration mapping and an enforcement-mode
string into an AWS Organizations tag-policy document (a JSON value), serializes
it with `JSON.stringify(content, null, 2)`, and pairs it with the organization
root in a single policy-attachment request.

The shallow embedding below models JSON values as the inductive `JValue`,
JavaScript objects as ordered association lists, and `Object.entries` /
`reduce` over objects faithfully (property assignment on an existing key
replaces the value in place; a new key is appended).
-/

/-- A JSON value as produced by the program: only strings, arrays and objects
occur in a tag-policy document.  Objects are ordered association lists,
mirroring JavaScript property insertion order. -/
inductive JValue where
  | str : String → JValue
  | arr : List JValue → JValue
  | obj : List (String × JValue) → JValue

/-- Field lookup on a JSON object (first binding wins), `none` on non-objects. -/
def lookupField : List (String × JValue) → String → Option JValue
  | [], _ => none
  | (k, v) :: rest, n => if k = n then some v else lookupField rest n

/-- `getField v name` reads a property of a JSON object value. -/
def getField (v : JValue) (name : String) : Option JValue :=
  match v with
  | JValue.obj l => lookupField l name
  | _ => none

/-- The ordered fields of a JSON object value (empty for non-objects). -/
def fieldsOf (v : JValue) : List (String × JValue) :=
  match v with
  | JValue.obj l => l
  | _ => []

/-- JavaScript property assignment `acc[k] = v` on an object modelled as an
ordered association list: an existing key keeps its position and gets the new
value; a fresh key is appended. -/
def insertOrReplace (l : List (String × JValue)) (k : String) (v : JValue) :
    List (String × JValue) :=
  match l with
  | [] => [(k, v)]
  | (k2, v2) :: rest =>
      if k2 = k then (k2, v) :: rest else (k2, v2) :: insertOrReplace rest k v

/-- `src/infra/index.ts:9-14` — the fallback `requiredTags` value: JavaScript
`config.getObject(...) || {...}` falls back exactly when the left side is
absent (`undefined`, modelled as `none`); any present object, even an empty
one, is truthy and used as-is. -/
def defaultRequiredTags : List (String × List String) :=
  [("Environment", ["Development", "Staging", "Production"]),
   ("Owner", []),
   ("CostCenter", []),
   ("Project", [])]

/-- `src/infra/index.ts:9` — resolution of the raw `requiredTags` config. -/
def resolveRequiredTags (cfg : Option (List (String × List String))) :
    List (String × List String) :=
  match cfg with
  | none => defaultRequiredTags
  | some m => m

/-- `src/infra/index.ts:27` — `config.get("enforcementMode") || "detective"`:
an absent value (`undefined`) and the empty string are both falsy in
JavaScript, so both default to `"detective"`; any other string passes through
unchanged. -/
def resolveEnforcementMode (cfg : Option String) : String :=
  match cfg with
  | none => "detective"
  | some s => if s = "" then "detective" else s

/-- `src/infra/index.ts:90-92` — the applicability field name:
`enforcementMode === "detective" ? "*@@report_required_tag_for*" : "enforced_for"`. -/
def enforcedForKey (enforcementMode : String) : String :=
  if enforcementMode = "detective" then "*@@report_required_tag_for*"
  else "enforced_for"

/-- `src/infra/index.ts:96-112` — the document entry built for one
`[tagKey, allowedValues]` pair of `Object.entries(requiredTags)`: always a
`tag_key` assignment, a `tag_value` assignment only when `allowedValues.length
> 0` (the conditional object spread), and the applicability field (under the
computed key) assigning `service:ALL_SUPPORTED` for each catalog entry. -/
def mkTagEntry (enfKey : String) (services : List String) (tagKey : String)
    (allowedValues : List String) : JValue :=
  JValue.obj
    ([("tag_key", JValue.obj [("@@assign", JValue.str tagKey)])] ++
     (if allowedValues.length > 0 then
        [("tag_value", JValue.obj [("@@assign",
            JValue.arr (allowedValues.map JValue.str))])]
      else []) ++
     [(enfKey, JValue.obj [("@@assign",
         JValue.arr (services.map (fun s => JValue.str (s ++ ":ALL_SUPPORTED"))))])])

/-- `src/infra/index.ts:94-114` — `tagPolicyContent`: the `reduce` over
`Object.entries(requiredTags)` building the `tags` object, wrapped under the
single top-level `tags` key. -/
def tagPolicyContent (requiredTags : List (String × List String))
    (enfKey : String) (services : List String) : JValue :=
  JValue.obj [("tags", JValue.obj
    (requiredTags.foldl
      (fun acc p => insertOrReplace acc p.1 (mkTagEntry enfKey services p.1 p.2))
      []))]

/-- The entries of the `tags` object of a compiled document. -/
def tagsEntries (doc : JValue) : List (String × JValue) :=
  match getField doc "tags" with
  | some (JValue.obj l) => l
  | _ => []

/-- `src/infra/index.ts:35-80` — `SUPPORTED_SERVICES`, the fixed Resource
Service Catalog. -/
def SUPPORTED_SERVICES : List String :=
  ["access-analyzer", "apigateway", "appmesh", "appstream", "athena",
   "cloudformation", "cloudfront", "cloudtrail", "cloudwatch", "codebuild",
   "codecommit", "codepipeline", "config", "dynamodb", "ec2", "ecr", "ecs",
   "elasticfilesystem", "eks", "elasticbeanstalk", "elasticache",
   "elasticloadbalancing", "es", "events", "fsx", "glue", "iam", "kinesis",
   "kms", "lambda", "logs", "rds", "redshift", "route53", "s3", "sagemaker",
   "secretsmanager", "sns", "sqs", "states", "ssm", "waf", "wafv2",
   "workspaces"]

/-- One hexadecimal digit, lowercase, as `JSON.stringify` emits in `\uXXXX`
escapes. -/
def hexDigit (n : Nat) : String :=
  if n < 10 then toString n else String.singleton (Char.ofNat (87 + n))

/-- The escape `JSON.stringify` applies to one character inside a string. -/
def escChar (c : Char) : String :=
  if c = '"' then "\\\""
  else if c = '\\' then "\\\\"
  else if c = Char.ofNat 8 then "\\b"
  else if c = Char.ofNat 9 then "\\t"
  else if c = Char.ofNat 10 then "\\n"
  else if c = Char.ofNat 12 then "\\f"
  else if c = Char.ofNat 13 then "\\r"
  else if c.toNat < 32 then
    "\\u00" ++ hexDigit (c.toNat / 16) ++ hexDigit (c.toNat % 16)
  else String.singleton c

/-- A JSON string literal: quoted and escaped as by `JSON.stringify`. -/
def quoteStr (s : String) : String :=
  "\"" ++ String.join (s.toList.map escChar) ++ "\""

/-- `n` spaces. -/
def spaces (n : Nat) : String :=
  String.mk (List.replicate n ' ')

mutual

/-- `JSON.stringify(v, null, 2)` restricted to the value shapes the program
produces; `ind` is the indentation column of the value's own opening token. -/
def serializeVal (ind : Nat) : JValue → String
  | JValue.str s => quoteStr s
  | JValue.arr [] => "[]"
  | JValue.arr (v :: r) =>
      "[\n" ++ String.intercalate ",\n" (serializeItems (ind + 2) (v :: r)) ++
      "\n" ++ spaces ind ++ "]"
  | JValue.obj [] => "\x7b\x7d"
  | JValue.obj (f :: r) =>
      "\x7b\n" ++ String.intercalate ",\n" (serializeFields (ind + 2) (f :: r)) ++
      "\n" ++ spaces ind ++ "\x7d"

/-- Array items, each on its own indented line. -/
def serializeItems (ind : Nat) : List JValue → List String
  | [] => []
  | v :: r => (spaces ind ++ serializeVal ind v) :: serializeItems ind r

/-- Object fields, each `"key": value` on its own indented line. -/
def serializeFields (ind : Nat) : List (String × JValue) → List String
  | [] => []
  | (k, v) :: r =>
      (spaces ind ++ quoteStr k ++ ": " ++ serializeVal ind v) ::
      serializeFields ind r

end

/-- `src/infra/index.ts:122` — `JSON.stringify(tagPolicyContent, null, 2)`. -/
def jsonStringify2 (v : JValue) : String :=
  serializeVal 0 v

/-- The spec's configuration-error taxonomy (§7).  The source defines no error
type of its own; only the spec-modelled Scope Binding Request Builder below
signals it. -/
inductive ConfigurationError where
  | emptyTargetScope
deriving DecidableEq

/-- A scope binding request: the policy reference paired with the target
scope, as in the `PolicyAttachment` arguments at `src/infra/index.ts:129-132`. -/
structure ScopeBindingRequest where
  policyReference : String
  targetScope : String
deriving DecidableEq

/-- Modelled from the spec: the Scope Binding Request Builder (§4.4).  The
rejection of an empty target scope is not in `src/` — it lives in the external
`aws.organizations.PolicyAttachment` constructor invoked at
`src/infra/index.ts:129-132` — so it is modelled from the spec's contract:
"No error conditions beyond an empty target scope, which is rejected at
construction." -/
def mkScopeBinding (policyRef : String) (targetScope : String) :
    Except ConfigurationError ScopeBindingRequest :=
  if targetScope = "" then Except.error ConfigurationError.emptyTargetScope
  else Except.ok ⟨policyRef, targetScope⟩

/-- The outputs of one compilation pass: the serialized policy document and
the scope binding requests produced alongside it. -/
structure CompilationPass where
  documentContent : String
  bindings : List ScopeBindingRequest
deriving DecidableEq

/-- One compilation pass of `src/infra/index.ts`: compile the document
(lines 94-114), serialize it (line 122), and produce the single scope binding
request pairing this pass's policy reference with the organization root
(lines 129-132).  `policyRef` is the opaque identifier the external
orchestration engine assigns to the policy created from this pass's document;
`rootId` is the externally resolved target scope. -/
def compilePass (requiredTags : List (String × List String)) (mode : String)
    (services : List String) (policyRef rootId : String) :
    Except ConfigurationError CompilationPass :=
  match mkScopeBinding policyRef rootId with
  | Except.error e => Except.error e
  | Except.ok b =>
      Except.ok
        ⟨jsonStringify2 (tagPolicyContent requiredTags (enforcedForKey mode) services),
         [b]⟩

/-- Assigning a key that is not yet present appends the binding. -/
theorem insertOrReplace_of_not_mem (l : List (String × JValue)) (k : String)
    (v : JValue) (h : k ∉ l.map Prod.fst) :
    insertOrReplace l k v = l ++ [(k, v)] := by
  induction l with
  | nil => rfl
  | cons p rest ih =>
      obtain ⟨k2, v2⟩ := p
      simp only [List.map_cons, List.mem_cons] at h
      push_neg at h
      simp only [insertOrReplace, List.cons_append]
      rw [ih h.2, if_neg (fun hk => h.1 (Eq.symm hk))]

/-- With pairwise-distinct keys, the `reduce` building the `tags` object is
the element-wise image of the configuration: each pair contributes its own
appended entry. -/
theorem buildTags_eq_map_aux (enfKey : String) (services : List String)
    (rt : List (String × List String)) (acc : List (String × JValue))
    (hnd : (rt.map Prod.fst).Nodup)
    (hdisj : ∀ p ∈ rt, p.1 ∉ acc.map Prod.fst) :
    rt.foldl
        (fun a p => insertOrReplace a p.1 (mkTagEntry enfKey services p.1 p.2))
        acc
      = acc ++ rt.map (fun p => (p.1, mkTagEntry enfKey services p.1 p.2)) := by
  induction rt generalizing acc with
  | nil => simp
  | cons p rest ih =>
      simp only [List.foldl_cons]
      rw [insertOrReplace_of_not_mem acc p.1 _ (hdisj p (List.mem_cons_self p rest))]
      simp only [List.map_cons, List.nodup_cons] at hnd
      rw [ih (acc ++ [(p.1, mkTagEntry enfKey services p.1 p.2)]) hnd.2]
      · simp
      · intro q hq
        simp only [List.map_append, List.mem_append]
        push_neg
        refine ⟨hdisj q (List.mem_cons_of_mem p hq), ?_⟩
        simp only [List.map_cons, List.map_nil, List.mem_singleton]
        intro hqp
        exact hnd.1 (hqp ▸ List.mem_map_of_mem Prod.fst hq)

/-- With pairwise-distinct keys, the `tags` object of the compiled document
lists one entry per configured label, in configuration order. -/
theorem tagsEntries_eq_map (rt : List (String × List String)) (enfKey : String)
    (services : List String) (hnd : (rt.map Prod.fst).Nodup) :
    tagsEntries (tagPolicyContent rt enfKey services)
      = rt.map (fun p => (p.1, mkTagEntry enfKey services p.1 p.2)) := by
  have h := buildTags_eq_map_aux enfKey services rt [] hnd (by simp)
  simp only [tagsEntries, tagPolicyContent, getField, lookupField, if_pos rfl, h]
  simp

/-- The applicability field name is never `tag_key`. -/
theorem enforcedForKey_ne_tag_key (m : String) : enforcedForKey m ≠ "tag_key" := by
  unfold enforcedForKey
  split <;> decide

/-- The applicability field name is never `tag_value`. -/
theorem enforcedForKey_ne_tag_value (m : String) :
    enforcedForKey m ≠ "tag_value" := by
  unfold enforcedForKey
  split <;> decide

/-- C1 (counterexample): the unrecognized mode string `"enforcd"` is not
rejected — the code resolves it silently to the enforcing applicability field
`"enforced_for"`, and so does the spec's own literal `"report"`; neither
selects the report field, and no error is signalled anywhere (mode resolution
in the source is a total string computation). -/
theorem mode_unrecognized_not_rejected :
    enforcedForKey (resolveEnforcementMode (some "enforcd")) = "enforced_for" ∧
    enforcedForKey (resolveEnforcementMode (some "report")) = "enforced_for" ∧
    enforcedForKey (resolveEnforcementMode (some "enforcd")) ≠
      "*@@report_required_tag_for*" := by
  decide

/-- C1 (amended): mode resolution is total and never signals an error: a
wholly absent value, the empty string, and the exact literal `"detective"`
select the report applicability field; every other input string silently
selects the enforcing field `"enforced_for"`. -/
theorem mode_resolution_characterization (c : Option String) :
    ((c = none ∨ c = some "" ∨ c = some "detective") ∧
       enforcedForKey (resolveEnforcementMode c) = "*@@report_required_tag_for*") ∨
    ((c ≠ none ∧ c ≠ some "" ∧ c ≠ some "detective") ∧
       enforcedForKey (resolveEnforcementMode c) = "enforced_for") := by
  match c with
  | none => exact Or.inl ⟨Or.inl rfl, by decide⟩
  | some s =>
      by_cases h0 : s = ""
      · subst h0
        exact Or.inl ⟨Or.inr (Or.inl rfl), by decide⟩
      · by_cases h1 : s = "detective"
        · subst h1
          exact Or.inl ⟨Or.inr (Or.inr rfl), by decide⟩
        · refine Or.inr ⟨⟨by simp, by simp [h0], by simp [h1]⟩, ?_⟩
          simp [resolveEnforcementMode, enforcedForKey, h0, h1]

/-- C10: mode resolution in the code is total: absent and empty-string
configuration values resolve to `"detective"`, whose applicability field is
the report field; the literals `"preventive"`, `"report"`, `"enforce"` and
every other non-empty string distinct from `"detective"` select the enforcing
field `"enforced_for"`, with no error for any input. -/
theorem mode_resolution_code_behavior (s : String) (h1 : s ≠ "")
    (h2 : s ≠ "detective") :
    resolveEnforcementMode none = "detective" ∧
    resolveEnforcementMode (some "") = "detective" ∧
    enforcedForKey "detective" = "*@@report_required_tag_for*" ∧
    enforcedForKey "preventive" = "enforced_for" ∧
    enforcedForKey "report" = "enforced_for" ∧
    enforcedForKey "enforce" = "enforced_for" ∧
    resolveEnforcementMode (some s) = s ∧
    enforcedForKey s = "enforced_for" := by
  refine ⟨rfl, by decide, by decide, by decide, by decide, by decide, ?_, ?_⟩
  · simp [resolveEnforcementMode, h1]
  · simp [enforcedForKey, h2]

/-- C10 (witness): the characterization instantiated at the misspelling
`"enforcd"`. -/
theorem mode_resolution_code_behavior_witness :
    resolveEnforcementMode none = "detective" ∧
    resolveEnforcementMode (some "") = "detective" ∧
    enforcedForKey "detective" = "*@@report_required_tag_for*" ∧
    enforcedForKey "preventive" = "enforced_for" ∧
    enforcedForKey "report" = "enforced_for" ∧
    enforcedForKey "enforce" = "enforced_for" ∧
    resolveEnforcementMode (some "enforcd") = "enforcd" ∧
    enforcedForKey "enforcd" = "enforced_for" :=
  mode_resolution_code_behavior "enforcd" (by decide) (by decide)

/-- C2: the two-label mapping compiled against the two-entry catalog in the
report (`"detective"`) mode produces exactly the spec's example document, wire
field names included. -/
theorem report_mode_document_exact :
    tagPolicyContent [("Environment", ["Dev", "Prod"]), ("Owner", [])]
        (enforcedForKey "detective") ["ec2", "s3"]
      = JValue.obj [("tags", JValue.obj
          [("Environment", JValue.obj
             [("tag_key", JValue.obj [("@@assign", JValue.str "Environment")]),
              ("tag_value", JValue.obj [("@@assign",
                 JValue.arr [JValue.str "Dev", JValue.str "Prod"])]),
              ("*@@report_required_tag_for*", JValue.obj [("@@assign",
                 JValue.arr [JValue.str "ec2:ALL_SUPPORTED",
                             JValue.str "s3:ALL_SUPPORTED"])])]),
           ("Owner", JValue.obj
             [("tag_key", JValue.obj [("@@assign", JValue.str "Owner")]),
              ("*@@report_required_tag_for*", JValue.obj [("@@assign",
                 JValue.arr [JValue.str "ec2:ALL_SUPPORTED",
                             JValue.str "s3:ALL_SUPPORTED"])])])])] := by
  rfl

/-- C8: an absent `requiredTags` configuration falls back to the built-in
default set: `Environment` restricted to exactly the three enumerated values,
and `Owner`, `CostCenter`, `Project` present with empty (unrestricted)
allowed-value lists. -/
theorem default_required_tags_value :
    resolveRequiredTags none =
      [("Environment", ["Development", "Staging", "Production"]),
       ("Owner", []), ("CostCenter", []), ("Project", [])] ∧
    List.lookup "Environment" (resolveRequiredTags none) =
      some ["Development", "Staging", "Production"] ∧
    List.lookup "Owner" (resolveRequiredTags none) = some [] ∧
    List.lookup "CostCenter" (resolveRequiredTags none) = some [] ∧
    List.lookup "Project" (resolveRequiredTags none) = some [] ∧
    (resolveRequiredTags none).length = 4 := by
  refine ⟨rfl, ?_, ?_, ?_, ?_, rfl⟩ <;> decide

/-- C3 (counterexample): a raw configuration whose only label name is empty
and whose only allowed value is whitespace-only is compiled into a complete
policy document — no error intervenes and a document is produced, contrary to
the claimed fail-fast rejection. -/
theorem invalid_config_still_compiles :
    tagPolicyContent [("", [" "])] (enforcedForKey "detective") ["ec2"]
      = JValue.obj [("tags", JValue.obj
          [("", JValue.obj
             [("tag_key", JValue.obj [("@@assign", JValue.str "")]),
              ("tag_value", JValue.obj [("@@assign",
                 JValue.arr [JValue.str " "])]),
              ("*@@report_required_tag_for*", JValue.obj [("@@assign",
                 JValue.arr [JValue.str "ec2:ALL_SUPPORTED"])])])])] := by
  rfl

/-- C3 (amended): the code performs no validation and defines no
`ConfigurationError`: every raw configuration with pairwise-distinct label
names — including empty or whitespace-only label names and empty or
whitespace-only allowed values — compiles without error into a document with
one entry per label, in order.  (Duplicate label names cannot reach the
compiler at all: the configuration arrives as a JavaScript object, whose keys
are unique by construction.) -/
theorem compiler_total_no_validation (rt : List (String × List String))
    (mode : String) (svc : List String) (hnd : (rt.map Prod.fst).Nodup) :
    ∃ entries,
      tagPolicyContent rt (enforcedForKey mode) svc
        = JValue.obj [("tags", JValue.obj entries)] ∧
      entries.map Prod.fst = rt.map Prod.fst ∧
      entries.length = rt.length := by
  refine ⟨rt.map (fun p => (p.1, mkTagEntry (enforcedForKey mode) svc p.1 p.2)),
    ?_, ?_, ?_⟩
  · have h := buildTags_eq_map_aux (enforcedForKey mode) svc rt [] hnd (by simp)
    simp [tagPolicyContent, h]
  · simp
  · simp

/-- C3 (witness): the amended theorem at a configuration with an empty label
name, a whitespace-only label name, a whitespace-only allowed value and an
empty allowed value. -/
theorem compiler_total_no_validation_witness :
    ∃ entries,
      tagPolicyContent [("", [" "]), ("  ", [""])] (enforcedForKey "preventive")
          ["ec2"]
        = JValue.obj [("tags", JValue.obj entries)] ∧
      entries.map Prod.fst = ["", "  "] ∧
      entries.length = 2 :=
  compiler_total_no_validation [("", [" "]), ("  ", [""])] "preventive" ["ec2"]
    (by decide)

/-- C4: in the compiled document, the entry of every configured label carries
a `tag_value` field assigning exactly the configured allowed values in their
original order when that list is non-empty, and carries no `tag_value` field
at all when the list is empty. -/
theorem tag_value_field_iff (rt : List (String × List String)) (mode : String)
    (svc : List String) (hnd : (rt.map Prod.fst).Nodup)
    (p : String × List String) (hp : p ∈ rt) :
    ∃ e, (p.1, e) ∈ tagsEntries (tagPolicyContent rt (enforcedForKey mode) svc) ∧
      (p.2 ≠ [] → getField e "tag_value" =
        some (JValue.obj [("@@assign", JValue.arr (p.2.map JValue.str))])) ∧
      (p.2 = [] → getField e "tag_value" = none) := by
  obtain ⟨k, vs⟩ := p
  refine ⟨mkTagEntry (enforcedForKey mode) svc k vs, ?_, ?_, ?_⟩
  · rw [tagsEntries_eq_map rt _ svc hnd]
    exact List.mem_map_of_mem _ hp
  · intro hne
    have h2 : ¬ (enforcedForKey mode = "tag_value") := enforcedForKey_ne_tag_value mode
    cases vs with
    | nil => exact absurd rfl hne
    | cons v vt =>
        simp [mkTagEntry, getField, lookupField, h2]
  · intro he
    have h2 : ¬ (enforcedForKey mode = "tag_value") := enforcedForKey_ne_tag_value mode
    subst he
    simp [mkTagEntry, getField, lookupField, h2]

/-- C4 (witness): the `tag_value` dichotomy at a two-label configuration, one
restricted and one unrestricted. -/
theorem tag_value_field_iff_witness :
    ∃ e, ("Environment", e) ∈ tagsEntries
        (tagPolicyContent [("Environment", ["Dev"]), ("Owner", [])]
          (enforcedForKey "detective") ["ec2"]) ∧
      ((["Dev"] : List String) ≠ [] → getField e "tag_value" =
        some (JValue.obj [("@@assign", JValue.arr [JValue.str "Dev"])])) ∧
      ((["Dev"] : List String) = [] → getField e "tag_value" = none) :=
  tag_value_field_iff [("Environment", ["Dev"]), ("Owner", [])] "detective"
    ["ec2"] (by decide) ("Environment", ["Dev"]) (by decide)

/-- C5: in the compiled document, the applicability field of every configured
label's entry assigns the Resource Service Catalog mapped element-wise through
`"<service>:ALL_SUPPORTED"` in catalog order — the same value regardless of
the label's name or allowed values. -/
theorem applicability_field_tokens (rt : List (String × List String))
    (mode : String) (svc : List String) (hnd : (rt.map Prod.fst).Nodup)
    (p : String × List String) (hp : p ∈ rt) :
    ∃ e, (p.1, e) ∈ tagsEntries (tagPolicyContent rt (enforcedForKey mode) svc) ∧
      getField e (enforcedForKey mode) =
        some (JValue.obj [("@@assign",
          JValue.arr (svc.map (fun s => JValue.str (s ++ ":ALL_SUPPORTED"))))]) := by
  obtain ⟨k, vs⟩ := p
  refine ⟨mkTagEntry (enforcedForKey mode) svc k vs, ?_, ?_⟩
  · rw [tagsEntries_eq_map rt _ svc hnd]
    exact List.mem_map_of_mem _ hp
  · have h1 : ¬ (("tag_key" : String) = enforcedForKey mode) :=
      fun h => enforcedForKey_ne_tag_key mode h.symm
    have h2 : ¬ (("tag_value" : String) = enforcedForKey mode) :=
      fun h => enforcedForKey_ne_tag_value mode h.symm
    cases vs with
    | nil => simp [mkTagEntry, getField, lookupField, h1, h2]
    | cons v vt => simp [mkTagEntry, getField, lookupField, h1, h2]

/-- C5 (witness): the applicability tokens of the `Owner` entry compiled
against the full `SUPPORTED_SERVICES` catalog. -/
theorem applicability_field_tokens_witness :
    ∃ e, ("Owner", e) ∈ tagsEntries
        (tagPolicyContent [("Owner", [])] (enforcedForKey "detective")
          SUPPORTED_SERVICES) ∧
      getField e (enforcedForKey "detective") =
        some (JValue.obj [("@@assign",
          JValue.arr (SUPPORTED_SERVICES.map
            (fun s => JValue.str (s ++ ":ALL_SUPPORTED"))))]) :=
  applicability_field_tokens [("Owner", [])] "detective" SUPPORTED_SERVICES
    (by decide) ("Owner", []) (by decide)

/-- Pointwise relatedness of the two images of one list. -/
theorem forall2_map_map {α β γ : Type} (R : β → γ → Prop) (f : α → β)
    (g : α → γ) (l : List α) (h : ∀ a ∈ l, R (f a) (g a)) :
    List.Forall₂ R (l.map f) (l.map g) := by
  induction l with
  | nil => exact List.Forall₂.nil
  | cons a t ih =>
      exact List.Forall₂.cons (h a (List.mem_cons_self a t))
        (ih (fun b hb => h b (List.mem_cons_of_mem a hb)))

/-- C6: for a fixed configuration and catalog, the document compiled in the
enforcing (`"preventive"`) mode and the document compiled in the report
(`"detective"`) mode have the same shape, the same label entries in the same
order, and field-for-field identical entry contents, except that the report
applicability field name `"*@@report_required_tag_for*"` is renamed to
`"enforced_for"`; every field value is untouched by the mode switch. -/
theorem mode_switch_frame (rt : List (String × List String))
    (svc : List String) (hnd : (rt.map Prod.fst).Nodup) :
    ∃ eE eR,
      tagPolicyContent rt (enforcedForKey "preventive") svc
        = JValue.obj [("tags", JValue.obj eE)] ∧
      tagPolicyContent rt (enforcedForKey "detective") svc
        = JValue.obj [("tags", JValue.obj eR)] ∧
      List.Forall₂ (fun (a b : String × JValue) =>
          a.1 = b.1 ∧
          fieldsOf a.2 = (fieldsOf b.2).map
            (fun f => (if f.1 = "*@@report_required_tag_for*" then "enforced_for"
                       else f.1, f.2)))
        eE eR := by
  refine ⟨rt.map (fun p => (p.1, mkTagEntry (enforcedForKey "preventive") svc p.1 p.2)),
          rt.map (fun p => (p.1, mkTagEntry (enforcedForKey "detective") svc p.1 p.2)),
          ?_, ?_, ?_⟩
  · have h := buildTags_eq_map_aux (enforcedForKey "preventive") svc rt [] hnd (by simp)
    simp [tagPolicyContent, h]
  · have h := buildTags_eq_map_aux (enforcedForKey "detective") svc rt [] hnd (by simp)
    simp [tagPolicyContent, h]
  · refine forall2_map_map _ _ _ rt (fun p _ => ⟨rfl, ?_⟩)
    obtain ⟨k, vs⟩ := p
    have hp : enforcedForKey "preventive" = "enforced_for" := by decide
    have hd : enforcedForKey "detective" = "*@@report_required_tag_for*" := by decide
    cases vs with
    | nil => simp [mkTagEntry, fieldsOf, hp, hd]
    | cons v vt => simp [mkTagEntry, fieldsOf, hp, hd]

/-- C6 (witness): the frame property at a restricted and an unrestricted
label over a two-service catalog. -/
theorem mode_switch_frame_witness :
    ∃ eE eR,
      tagPolicyContent [("Environment", ["Dev"]), ("Owner", [])]
          (enforcedForKey "preventive") ["ec2", "s3"]
        = JValue.obj [("tags", JValue.obj eE)] ∧
      tagPolicyContent [("Environment", ["Dev"]), ("Owner", [])]
          (enforcedForKey "detective") ["ec2", "s3"]
        = JValue.obj [("tags", JValue.obj eR)] ∧
      List.Forall₂ (fun (a b : String × JValue) =>
          a.1 = b.1 ∧
          fieldsOf a.2 = (fieldsOf b.2).map
            (fun f => (if f.1 = "*@@report_required_tag_for*" then "enforced_for"
                       else f.1, f.2)))
        eE eR :=
  mode_switch_frame [("Environment", ["Dev"]), ("Owner", [])] ["ec2", "s3"]
    (by decide)

/-- C7: compilation and serialization form a pure function of the
configuration triple — two compilation runs on equal inputs produce the same
serialized string, byte for byte.  (The embedding is faithful on this point:
the source consults no ambient state beyond its three inputs, and
`Object.entries` iteration order is the deterministic property insertion
order.) -/
theorem compile_serialize_deterministic (rt1 rt2 : List (String × List String))
    (m1 m2 : String) (svc1 svc2 : List String)
    (h1 : rt1 = rt2) (h2 : m1 = m2) (h3 : svc1 = svc2) :
    jsonStringify2 (tagPolicyContent rt1 (enforcedForKey m1) svc1)
      = jsonStringify2 (tagPolicyContent rt2 (enforcedForKey m2) svc2) := by
  subst h1
  subst h2
  subst h3
  rfl

/-- C7 (witness): two runs on the spec's example triple. -/
theorem compile_serialize_deterministic_witness :
    jsonStringify2 (tagPolicyContent [("Environment", ["Dev", "Prod"]), ("Owner", [])]
        (enforcedForKey "detective") ["ec2", "s3"])
      = jsonStringify2 (tagPolicyContent [("Environment", ["Dev", "Prod"]), ("Owner", [])]
        (enforcedForKey "detective") ["ec2", "s3"]) :=
  compile_serialize_deterministic _ _ "detective" "detective" _ _ rfl rfl rfl

/-- C9: the Scope Binding Request Builder errors exactly on an empty target
scope, and a compilation pass with a non-empty target scope produces exactly
one Scope Binding Request, pairing that scope with the reference of the
policy document serialized in the same pass. -/
theorem scope_binding_request_contract (rt : List (String × List String))
    (mode : String) (svc : List String) (pid rid : String) :
    (compilePass rt mode svc pid rid
        = Except.error ConfigurationError.emptyTargetScope ↔ rid = "") ∧
    (rid ≠ "" → compilePass rt mode svc pid rid = Except.ok
      ⟨jsonStringify2 (tagPolicyContent rt (enforcedForKey mode) svc),
       [⟨pid, rid⟩]⟩) := by
  constructor
  · constructor
    · intro h
      by_contra hne
      simp [compilePass, mkScopeBinding, hne] at h
    · intro h
      simp [compilePass, mkScopeBinding, h]
  · intro h
    simp [compilePass, mkScopeBinding, h]

/-- C9 (witness): a pass over a one-label configuration bound to a concrete
non-empty root scope. -/
theorem scope_binding_request_contract_witness :
    compilePass [("Owner", [])] "detective" ["ec2"] "pol-1" "r-abc1"
      = Except.ok
        ⟨jsonStringify2 (tagPolicyContent [("Owner", [])]
           (enforcedForKey "detective") ["ec2"]),
         [⟨"pol-1", "r-abc1"⟩]⟩ :=
  (scope_binding_request_contract [("Owner", [])] "detective" ["ec2"]
    "pol-1" "r-abc1").2 (by decide)
